import Mathlib

/-!
Verification development for the katello agent plugin
(src/src/katello/agent/katelloplugin.py).

The plugin is shallowly embedded: external collaborators (the
subscription-manager identity store, the entitlement server connection,
the yum repository database, the RHSM config file, the gofer plugin
runtime) are modelled as oracles supplied through environment records,
and each plugin function is a Lean function from its environment to an
explicit trace of observable events plus an outcome.  Python exceptions
are modelled with `Except PyExc`: a `.error` outcome is an exception
propagating out of the function.
-/

namespace Katello

/-- A Python exception, as far as the plugin discriminates them:
`RemoteServerException` carries an HTTP status code
(`rhsm.connection.RemoteServerException`); every other exception is
collapsed to its message string. -/
inductive PyExc
  | remoteServer (code : Nat)
  | other (msg : String)
deriving DecidableEq, Repr

/-- The message text used when the plugin logs `str(e)`. -/
def pyExcMsg : PyExc → String
  | .remoteServer code => "RemoteServerException code " ++ toString code
  | .other m => m

/-- `httplib.NOT_FOUND`. -/
def NOT_FOUND : Nat := 404

/-- `REPOSITORY_PATH` constant from the source. -/
def REPOSITORY_PATH : String := "/etc/yum.repos.d/redhat.repo"

/-- A Python value as far as the report payload needs: strings, lists
and dicts (a dict is an association list of string keys). -/
inductive PyVal
  | str (s : String)
  | list (xs : List PyVal)
  | dict (entries : List (String × PyVal))

/-- The keys of a dict value (empty for non-dicts). -/
def dictKeys : PyVal → List String
  | .dict entries => entries.map Prod.fst
  | _ => []

/-- Characters after the last slash of a path. -/
def basenameList (cs : List Char) : List Char :=
  cs.foldl (fun acc c => if c = '/' then [] else acc ++ [c]) []

/-- Model of `os.path.basename`: the part of the path after the last
slash. -/
def basename (p : String) : String :=
  String.mk (basenameList p.toList)

/-- Model of `os.path.join` for a relative second component. -/
def joinPath (a b : String) : String :=
  if a = "" then b
  else if a.endsWith "/" then a ++ b
  else a ++ "/" ++ b

/-- One enabled yum repository as seen through `yb.repos.listEnabled()`:
its id, its baseurl, and its source `.repo` file attribute (`none`
models a repo object whose `repofile` attribute is unset/None; an empty
string is likewise falsy in Python). -/
structure Repo where
  id : String
  baseurl : String
  repofile : Option String
deriving DecidableEq, Repr

/-- Python truthiness of the `repofile` attribute: `not r.repofile` is
true exactly when the attribute is None or the empty string. -/
def repofileTruthy : Option String → Bool
  | none => false
  | some s => s ≠ ""

/-- The dict built for one matching repo:
`dict(repositoryid=r.id, baseurl=r.baseurl)`. -/
def entryVal (r : Repo) : PyVal :=
  .dict [("repositoryid", .str r.id), ("baseurl", .str r.baseurl)]

/-- The loop body of `EnabledReport.find_enabled`: walk the enabled
repos, skip those with a falsy `repofile`, skip those whose file
basename differs from `repofn`, and collect an entry for the rest. -/
def enabledEntries : List Repo → String → List PyVal
  | [], _ => []
  | r :: rest, repofn =>
    if repofileTruthy r.repofile = false then enabledEntries rest repofn
    else if basename (r.repofile.getD "") ≠ repofn then enabledEntries rest repofn
    else entryVal r :: enabledEntries rest repofn

/-- `EnabledReport.find_enabled`: returns `dict(repos=enabled)`. -/
def find_enabled (repos : List Repo) (repofn : String) : PyVal :=
  .dict [("repos", .list (enabledEntries repos repofn))]

/-- `EnabledReport.generate`: returns
`dict(enabled_repos=EnabledReport.find_enabled(yb, repofn))`. -/
def generate (repos : List Repo) (repofn : String) : PyVal :=
  .dict [("enabled_repos", find_enabled repos repofn)]

/-- `EnabledReport.__init__`: `self.content = generate(basename(path))`.
The enabled yum repos are passed in as the oracle for the `Yum` object. -/
def report_content (repos : List Repo) (path : String) : PyVal :=
  generate repos (basename path)

/-- An observable action of the plugin: network calls, log output,
sleeping, mutation of the plugin messaging settings, file writes, and
the attach/detach signals to the gofer runtime. -/
inductive Event
  | netGetConsumer (cid : String)
  | netPutReport (cid : String) (report : PyVal)
  | logWarn (msg : String)
  | logError (msg : String)
  | logException (msg : String)
  | sleep (secs : Nat)
  | setCacert (v : String)
  | setUrl (v : String)
  | setUuid (v : String)
  | writeFile (path : String) (content : String)
  | attach
  | detach

/-- Oracle for one run of `validate_registration`:
whether `ConsumerIdentity.existsAndValid()` holds, the outcome of
`ConsumerIdentity.read().getConsumerId()` (an uncaught exception if it
fails there), and the outcome of the guarded block
`UEP(); uep.getConsumer(consumer_id)` — `.ok b` means the lookup
returned, with `b` recording `consumer is not None`; a failure while
constructing the `UEP` is a generic exception like any other and is
folded into this oracle. -/
structure ValidateEnv where
  existsAndValid : Bool
  identityRead : Except PyExc String
  getConsumer : Except PyExc Bool

/-- Result of a run of `validate_registration`: the event trace, the
outcome (`.error e` when the exception `e` propagates to the caller)
and the final value of the global `registered` flag. -/
structure VResult where
  events : List Event
  outcome : Except PyExc Unit
  flag : Bool

/-- `validate_registration`: sets `registered = False`; returns early
when the identity certificate is absent or invalid; otherwise looks the
consumer up at the entitlement server, swallowing a
`RemoteServerException` whose code is NOT_FOUND and re-raising every
other exception after logging it. -/
def validate_registration (env : ValidateEnv) : VResult :=
  if env.existsAndValid then
    match env.identityRead with
    | .error e => ⟨[], .error e, false⟩
    | .ok cid =>
      match env.getConsumer with
      | .ok found => ⟨[.netGetConsumer cid], .ok (), found⟩
      | .error (.remoteServer code) =>
        if code ≠ NOT_FOUND then
          ⟨[.netGetConsumer cid, .logWarn (pyExcMsg (.remoteServer code))],
           .error (.remoteServer code), false⟩
        else
          ⟨[.netGetConsumer cid], .ok (), false⟩
      | .error (.other m) =>
        ⟨[.netGetConsumer cid, .logException m], .error (.other m), false⟩
  else
    ⟨[], .ok (), false⟩

/-- Oracle for one run of `send_enabled_report`: the outcome of the
`UEP()` construction, of `ConsumerIdentity.read().getConsumerId()`, of
reading the enabled yum repos while building the `EnabledReport`, and
of the remote PUT `uep.report_enabled(...)`. -/
structure SendEnv where
  uepInit : Except PyExc Unit
  identityRead : Except PyExc String
  yumRepos : Except PyExc (List Repo)
  putResult : Except PyExc Unit

/-- The body of the `try` block of `send_enabled_report`: build the
connection, read the identity, build the report for `path`, and PUT it. -/
def send_report_body (path : String) (env : SendEnv) :
    List Event × Except PyExc Unit :=
  match env.uepInit with
  | .error e => ([], .error e)
  | .ok _ =>
    match env.identityRead with
    | .error e => ([], .error e)
    | .ok cid =>
      match env.yumRepos with
      | .error e => ([], .error e)
      | .ok repos =>
        match env.putResult with
        | .error e => ([.netPutReport cid (report_content repos path)], .error e)
        | .ok _ => ([.netPutReport cid (report_content repos path)], .ok ())

/-- `send_enabled_report`: returns at once when `registered` is false;
otherwise runs the body with every exception caught and logged. -/
def send_enabled_report (registered : Bool) (path : String) (env : SendEnv) :
    List Event × Except PyExc Unit :=
  if registered = false then ([], .ok ())
  else
    match send_report_body path env with
    | (evs, .ok _) => (evs, .ok ())
    | (evs, .error e) => (evs ++ [.logError ("send enabled report failed: " ++ pyExcMsg e)], .ok ())

/-- The two RHSM configuration values `update_settings` consumes: the
value of `rhsm_conf[rhsm][repo_ca_cert] % rhsm_conf[rhsm]` (the percent
interpolation is performed by the external Config machinery, so the
resolved string is taken as given) and `rhsm_conf[server][hostname]`. -/
structure RhsmConf where
  repo_ca_cert : String
  hostname : String

/-- A consumer identity certificate as `update_settings` and `bundle`
see it: the consumer id, the key and cert PEM text, and the
`ConsumerIdentity.PATH` certificate directory. -/
structure Identity where
  consumerId : String
  key : String
  cert : String
  PATH : String

/-- Oracle for one run of `update_settings`: the outcome of reading the
RHSM config file, of `ConsumerIdentity.read()`, and of the file write
inside `bundle`. -/
structure UpdateEnv where
  confRead : Except PyExc RhsmConf
  identityRead : Except PyExc Identity
  bundleWrite : Except PyExc Unit

/-- `bundle`: write the consumer key followed by the consumer cert to
`os.path.join(certificate.PATH, bundle.pem)` and return that path. -/
def bundle (c : Identity) (writeResult : Except PyExc Unit) :
    List Event × Except PyExc String :=
  match writeResult with
  | .ok _ =>
    ([.writeFile (joinPath c.PATH "bundle.pem") (c.key ++ c.cert)],
     .ok (joinPath c.PATH "bundle.pem"))
  | .error e => ([], .error e)

/-- `update_settings`: read the RHSM config and the identity, set the
three messaging settings of the plugin configuration, and bundle the
certificate. -/
def update_settings (env : UpdateEnv) : List Event × Except PyExc Unit :=
  match env.confRead with
  | .error e => ([], .error e)
  | .ok conf =>
    match env.identityRead with
    | .error e => ([], .error e)
    | .ok c =>
      let evs := [Event.setCacert conf.repo_ca_cert,
                  Event.setUrl ("proton+amqps://" ++ conf.hostname ++ ":5647"),
                  Event.setUuid ("pulp.agent." ++ c.consumerId)]
      match bundle c env.bundleWrite with
      | (bevs, .ok _) => (evs ++ bevs, .ok ())
      | (bevs, .error e) => (evs ++ bevs, .error e)

/-- Oracle for one iteration of the `Attach.run` loop: the oracles of
the called functions plus the outcomes of `plugin.attach()` and
`plugin.detach()`. -/
structure IterEnv where
  vEnv : ValidateEnv
  sEnv : SendEnv
  uEnv : UpdateEnv
  attachResult : Except PyExc Unit
  detachResult : Except PyExc Unit

/-- The body of the `try` block of one `Attach.run` iteration: validate
the registration, then either (registered) send the enabled report,
update the settings and attach, or (not registered) detach.  The
result is the trace plus `some e` when the exception `e` escapes the
body into the `except` clause. -/
def attach_iteration (env : IterEnv) : List Event × Option PyExc :=
  match validate_registration env.vEnv with
  | ⟨vevs, .error e, _⟩ => (vevs, some e)
  | ⟨vevs, .ok _, flag⟩ =>
    if flag then
      match send_enabled_report true REPOSITORY_PATH env.sEnv with
      | (sevs, .error e) => (vevs ++ sevs, some e)
      | (sevs, .ok _) =>
        match update_settings env.uEnv with
        | (uevs, .error e) => (vevs ++ sevs ++ uevs, some e)
        | (uevs, .ok _) =>
          match env.attachResult with
          | .error e => (vevs ++ sevs ++ uevs ++ [.attach], some e)
          | .ok _ => (vevs ++ sevs ++ uevs ++ [.attach], none)
    else
      match env.detachResult with
      | .error e => (vevs ++ [.detach], some e)
      | .ok _ => (vevs ++ [.detach], none)

/-- `Attach.run`: `while True: try: body; break except: warn; sleep(60)`.
The loop is given an oracle per iteration (`envs k` for the k-th) and a
fuel bound; `none` means the loop was still retrying when the fuel ran
out, `some tr` means the loop terminated with total trace `tr`. -/
def attach_run : (Nat → IterEnv) → Nat → Option (List Event)
  | _, 0 => none
  | envs, n + 1 =>
    match attach_iteration (envs 0) with
    | (evs, none) => some evs
    | (evs, some e) =>
      match attach_run (fun k => envs (k + 1)) n with
      | none => none
      | some rest =>
        some (evs ++ [.logWarn (pyExcMsg e), .sleep 60] ++ rest)

/-! ### Theorems about the enabled-repo report -/

lemma enabledEntries_eq_filter_map (fn : String) :
    ∀ repos : List Repo, (∀ r ∈ repos, repofileTruthy r.repofile = true) →
      enabledEntries repos fn =
        (repos.filter (fun r => basename (r.repofile.getD "") == fn)).map entryVal := by
  intro repos
  induction repos with
  | nil => intro _; rfl
  | cons r rest ih =>
    intro h
    have hr := h r (List.mem_cons_self r rest)
    have hrest : ∀ x ∈ rest, repofileTruthy x.repofile = true :=
      fun x hx => h x (List.mem_cons_of_mem r hx)
    by_cases hb : basename (r.repofile.getD "") = fn
    · simp [enabledEntries, hr, hb, List.filter_cons, ih hrest]
    · simp [enabledEntries, hr, hb, List.filter_cons, ih hrest]

/-- C2: for every repo-definition file path and every set of enabled
repositories (each with a source file recorded), the enabled-repo
report contains exactly those enabled repositories whose source file
basename equals the basename of the given path, each as a
repositoryid/baseurl entry. -/
theorem thm_C2 (repos : List Repo) (path : String)
    (h : ∀ r ∈ repos, repofileTruthy r.repofile = true) :
    report_content repos path =
      PyVal.dict [("enabled_repos", PyVal.dict [("repos", PyVal.list
        ((repos.filter (fun r => basename (r.repofile.getD "") == basename path)).map
          entryVal))])] := by
  have key := enabledEntries_eq_filter_map (basename path) repos h
  simp [report_content, generate, find_enabled, key]

/-- Three concrete enabled repos: two defined in pulp.repo, one in
other.repo. -/
def c2repos : List Repo :=
  [⟨"r1", "u1", some "/etc/yum.repos.d/pulp.repo"⟩,
   ⟨"r2", "u2", some "/etc/yum.repos.d/pulp.repo"⟩,
   ⟨"r3", "u3", some "/etc/yum.repos.d/other.repo"⟩]

/-- C2 witness: on a file with two repos of matching basename and one
with a different basename, the report holds exactly the two matching
entries. -/
theorem thm_C2_witness :
    report_content c2repos "/some/dir/pulp.repo" =
      PyVal.dict [("enabled_repos", PyVal.dict [("repos", PyVal.list
        [entryVal ⟨"r1", "u1", some "/etc/yum.repos.d/pulp.repo"⟩,
         entryVal ⟨"r2", "u2", some "/etc/yum.repos.d/pulp.repo"⟩])])] := by
  have h := thm_C2 c2repos "/some/dir/pulp.repo" (by decide)
  rw [h]
  rfl

/-- C3 counterexample: the report content built by the reporter for a
concrete path is keyed by enabled_repos, not by repos as the claim
states. -/
theorem thm_C3_counterexample :
    dictKeys (report_content [] REPOSITORY_PATH) = ["enabled_repos"] ∧
    dictKeys (report_content [] REPOSITORY_PATH) ≠ ["repos"] := by
  constructor
  · rfl
  · decide

/-- C3 (amended): the report content is a mapping with exactly one key,
enabled_repos, whose value is a mapping with exactly one key, repos,
whose value is the list of matching repositoryid/baseurl pairs. -/
theorem thm_C3 (repos : List Repo) (path : String) :
    dictKeys (report_content repos path) = ["enabled_repos"] ∧
    report_content repos path =
      PyVal.dict [("enabled_repos", PyVal.dict [("repos",
        PyVal.list (enabledEntries repos (basename path)))])] :=
  ⟨rfl, rfl⟩

lemma enabledEntries_filter_truthy (fn : String) :
    ∀ repos : List Repo,
      enabledEntries repos fn =
        enabledEntries (repos.filter (fun r => repofileTruthy r.repofile)) fn := by
  intro repos
  induction repos with
  | nil => rfl
  | cons r rest ih =>
    by_cases ht : repofileTruthy r.repofile
    · simp [enabledEntries, List.filter_cons, ht, ih]
    · simp only [Bool.not_eq_true] at ht
      simp [enabledEntries, List.filter_cons, ht, ih]

lemma enabledEntries_falsy_nil (fn : String) :
    ∀ repos : List Repo,
      enabledEntries (repos.filter (fun r => !repofileTruthy r.repofile)) fn = [] := by
  intro repos
  induction repos with
  | nil => rfl
  | cons r rest ih =>
    by_cases ht : repofileTruthy r.repofile
    · simp [List.filter_cons, ht, ih]
    · simp only [Bool.not_eq_true] at ht
      simp [List.filter_cons, ht, enabledEntries, ih]

/-- C9: repositories whose repofile attribute is unset (or empty) never
contribute to the report: the entries are unchanged when restricting to
repos with a truthy repofile, and a list of only falsy-repofile repos
yields no entries, whatever the basename filter is. -/
theorem thm_C9 (repos : List Repo) (fn : String) :
    enabledEntries repos fn =
      enabledEntries (repos.filter (fun r => repofileTruthy r.repofile)) fn ∧
    enabledEntries (repos.filter (fun r => !repofileTruthy r.repofile)) fn = [] :=
  ⟨enabledEntries_filter_truthy fn repos, enabledEntries_falsy_nil fn repos⟩

/-! ### Theorems about validate_registration -/

/-- C1: when the entitlement lookup answers not found, the registration
flag ends up false and no exception propagates out of the validator;
when the lookup fails with a remote error whose code is not NOT_FOUND,
or with any other exception, the exception propagates to the caller. -/
theorem thm_C1 (env : ValidateEnv) (cid : String)
    (hid : env.identityRead = .ok cid) :
    (env.getConsumer = .error (.remoteServer NOT_FOUND) →
      (validate_registration env).outcome = .ok () ∧
      (validate_registration env).flag = false)
    ∧ (∀ c, c ≠ NOT_FOUND → env.existsAndValid = true →
        env.getConsumer = .error (.remoteServer c) →
        (validate_registration env).outcome = .error (.remoteServer c))
    ∧ (∀ m, env.existsAndValid = true → env.getConsumer = .error (.other m) →
        (validate_registration env).outcome = .error (.other m)) := by
  refine ⟨?_, ?_, ?_⟩
  · intro hg
    by_cases hv : env.existsAndValid
    · simp [validate_registration, hv, hid, hg]
    · simp [validate_registration, hv]
  · intro c hc hv hg
    simp [validate_registration, hv, hid, hg, hc]
  · intro m hv hg
    simp [validate_registration, hv, hid, hg]

/-- A validator environment whose lookup answers 404. -/
def c1env : ValidateEnv := ⟨true, .ok "abc-123", .error (.remoteServer 404)⟩

/-- C1 witness: on a concrete environment whose lookup answers 404, the
validator returns normally with the flag false. -/
theorem thm_C1_witness :
    (validate_registration c1env).outcome = .ok () ∧
    (validate_registration c1env).flag = false :=
  (thm_C1 c1env "abc-123" rfl).1 rfl

/-- C8: when the consumer identity certificate is absent or invalid,
the validator sets the flag false and returns with no event at all: no
server contact and no exception. -/
theorem thm_C8 (env : ValidateEnv) (h : env.existsAndValid = false) :
    validate_registration env = ⟨[], .ok (), false⟩ := by
  simp [validate_registration, h]

/-- A validator environment with an absent or invalid certificate. -/
def c8env : ValidateEnv := ⟨false, .ok "abc-123", .ok true⟩

/-- C8 witness: the concrete unregistered environment produces the
empty trace, a normal return and a false flag. -/
theorem thm_C8_witness :
    validate_registration c8env = ⟨[], .ok (), false⟩ :=
  thm_C8 c8env rfl

/-! ### Theorems about send_enabled_report -/

/-- C5: with the registration flag false the sender returns at once:
no event is produced (so no network call and no state change) and no
exception is raised. -/
theorem thm_C5 (path : String) (env : SendEnv) :
    send_enabled_report false path env = ([], .ok ()) :=
  rfl

/-- C7: the sender never propagates an exception: its outcome is always
normal, and whenever the body fails the trace is the body trace
followed by the error log entry. -/
theorem thm_C7 (registered : Bool) (path : String) (env : SendEnv) :
    (send_enabled_report registered path env).2 = .ok () ∧
    (∀ e, registered = true → (send_report_body path env).2 = .error e →
      (send_enabled_report registered path env).1 =
        (send_report_body path env).1 ++
          [.logError ("send enabled report failed: " ++ pyExcMsg e)]) := by
  constructor
  · cases registered with
    | false => rfl
    | true =>
      rcases hb : send_report_body path env with ⟨evs, out⟩
      cases out with
      | ok _ => simp [send_enabled_report, hb]
      | error e => simp [send_enabled_report, hb]
  · intro e hr hb
    rcases hbody : send_report_body path env with ⟨evs, out⟩
    rw [hbody] at hb
    cases hb
    simp [send_enabled_report, hr, hbody]

/-- A sender environment whose remote PUT fails. -/
def c7env : SendEnv := ⟨.ok (), .ok "abc-123", .ok [], .error (.other "boom")⟩

/-- C7 witness: with a failing PUT the sender logs the failure and
still returns normally. -/
theorem thm_C7_witness :
    (send_enabled_report true REPOSITORY_PATH c7env).1 =
      (send_report_body REPOSITORY_PATH c7env).1 ++
        [Event.logError ("send enabled report failed: " ++ pyExcMsg (.other "boom"))] :=
  (thm_C7 true REPOSITORY_PATH c7env).2 (.other "boom") rfl rfl

/-! ### Theorems about update_settings -/

/-- C10: a successful run of the settings updater produces exactly four
events: setting the messaging CA cert, the broker URL and the client
uuid, then writing the bundle file at the certificate directory's
bundle.pem path with the consumer key followed by the consumer cert;
nothing else is touched. -/
theorem thm_C10 (env : UpdateEnv) (conf : RhsmConf) (c : Identity)
    (hc : env.confRead = .ok conf) (hi : env.identityRead = .ok c)
    (hs : (update_settings env).2 = .ok ()) :
    (update_settings env).1 =
      [.setCacert conf.repo_ca_cert,
       .setUrl ("proton+amqps://" ++ conf.hostname ++ ":5647"),
       .setUuid ("pulp.agent." ++ c.consumerId),
       .writeFile (joinPath c.PATH "bundle.pem") (c.key ++ c.cert)] := by
  cases hw : env.bundleWrite with
  | ok _ => simp [update_settings, hc, hi, bundle, hw]
  | error e =>
    rw [show (update_settings env).2 = .error e by simp [update_settings, hc, hi, bundle, hw]] at hs
    cases hs

/-- A settings-updater environment where every step succeeds. -/
def c10env : UpdateEnv :=
  ⟨.ok ⟨"/etc/rhsm/ca/katello-server-ca.pem", "sat.example.com"⟩,
   .ok ⟨"abc-123", "KEY", "CERT", "/etc/pki/consumer"⟩, .ok ()⟩

/-- C10 witness: the concrete successful run sets the three messaging
fields and writes the bundle file, in that order. -/
theorem thm_C10_witness :
    (update_settings c10env).1 =
      [.setCacert "/etc/rhsm/ca/katello-server-ca.pem",
       .setUrl ("proton+amqps://" ++ "sat.example.com" ++ ":5647"),
       .setUuid ("pulp.agent." ++ "abc-123"),
       .writeFile (joinPath "/etc/pki/consumer" "bundle.pem") ("KEY" ++ "CERT")] :=
  thm_C10 c10env ⟨"/etc/rhsm/ca/katello-server-ca.pem", "sat.example.com"⟩
    ⟨"abc-123", "KEY", "CERT", "/etc/pki/consumer"⟩ rfl rfl rfl

/-! ### Theorems about the Attach worker -/

lemma attach_run_all_fail (n : Nat) :
    ∀ envs : Nat → IterEnv, (∀ k, (attach_iteration (envs k)).2 ≠ none) →
      attach_run envs n = none := by
  induction n with
  | zero => intro envs _; rfl
  | succ n ih =>
    intro envs hall
    rcases hi : attach_iteration (envs 0) with ⟨evs, r⟩
    cases r with
    | none => exact absurd (by rw [hi]) (hall 0)
    | some e =>
      simp [attach_run, hi, ih (fun k => envs (k + 1)) (fun k => hall (k + 1))]

/-- C4: an iteration of the attach worker that completes without an
exception terminates the loop at once with just that iteration's
trace; an iteration that raises is followed by a warning log, a fixed
60 second sleep and the next iteration; and when every iteration
raises, the loop never terminates, whatever the fuel (unbounded
retries). -/
theorem thm_C4 (envs : Nat → IterEnv) (n : Nat) :
    ((attach_iteration (envs 0)).2 = none →
      attach_run envs (n + 1) = some (attach_iteration (envs 0)).1)
    ∧ (∀ e, (attach_iteration (envs 0)).2 = some e →
      attach_run envs (n + 1) =
        Option.map
          (fun rest => (attach_iteration (envs 0)).1 ++
            [.logWarn (pyExcMsg e), .sleep 60] ++ rest)
          (attach_run (fun k => envs (k + 1)) n))
    ∧ ((∀ k, (attach_iteration (envs k)).2 ≠ none) → attach_run envs n = none) := by
  refine ⟨?_, ?_, attach_run_all_fail n envs⟩
  · intro h
    rcases hi : attach_iteration (envs 0) with ⟨evs, r⟩
    rw [hi] at h
    simp only at h
    subst h
    simp [attach_run, hi]
  · intro e he
    rcases hi : attach_iteration (envs 0) with ⟨evs, r⟩
    rw [hi] at he
    simp only at he
    subst he
    cases hrec : attach_run (fun k => envs (k + 1)) n with
    | none => simp [attach_run, hi, hrec]
    | some rest => simp [attach_run, hi, hrec]

/-- A sender environment for the attach-loop scenarios. -/
def c4sEnv : SendEnv := ⟨.ok (), .ok "abc-123", .ok [], .ok ()⟩

/-- A settings environment for the attach-loop scenarios. -/
def c4uEnv : UpdateEnv :=
  ⟨.ok ⟨"/etc/rhsm/ca/katello-server-ca.pem", "sat.example.com"⟩,
   .ok ⟨"abc-123", "KEY", "CERT", "/etc/pki/consumer"⟩, .ok ()⟩

/-- An iteration whose entitlement lookup fails with a generic error. -/
def c4fail : IterEnv :=
  ⟨⟨true, .ok "abc-123", .error (.other "down")⟩, c4sEnv, c4uEnv, .ok (), .ok ()⟩

/-- An iteration that finds no valid certificate and detaches. -/
def c4ok : IterEnv :=
  ⟨⟨false, .ok "abc-123", .ok true⟩, c4sEnv, c4uEnv, .ok (), .ok ()⟩

/-- A loop scenario: the first iteration raises, the second succeeds. -/
def c4envs : Nat → IterEnv := fun k => if k = 0 then c4fail else c4ok

/-- C4 witness: with a failing first iteration and a succeeding second
one, the loop retries once after a 60 second sleep and then stops. -/
theorem thm_C4_witness :
    attach_run c4envs 2 =
      some [Event.netGetConsumer "abc-123", Event.logException "down",
            Event.logWarn "down", Event.sleep 60, Event.detach] := by
  have h2 : attach_run c4envs 2 =
      Option.map
        (fun rest => (attach_iteration (c4envs 0)).1 ++
          [Event.logWarn (pyExcMsg (.other "down")), Event.sleep 60] ++ rest)
        (attach_run (fun k => c4envs (k + 1)) 1) :=
    (thm_C4 c4envs 1).2.1 (.other "down") rfl
  have h1 : attach_run (fun k => c4envs (k + 1)) 1 =
      some (attach_iteration ((fun k => c4envs (k + 1)) 0)).1 :=
    (thm_C4 (fun k => c4envs (k + 1)) 0).1 rfl
  rw [h2, h1]
  rfl

/-- C6: in an iteration of the attach worker that completes without an
exception, a true registration flag yields, in order, the validation
trace, the enabled-report send, the settings refresh and the attach
signal; a false flag yields the validation trace followed only by the
detach signal. -/
theorem thm_C6 (env : IterEnv) (h : (attach_iteration env).2 = none) :
    ((validate_registration env.vEnv).flag = true →
      (attach_iteration env).1 =
        (validate_registration env.vEnv).events
          ++ (send_enabled_report true REPOSITORY_PATH env.sEnv).1
          ++ (update_settings env.uEnv).1 ++ [.attach])
    ∧ ((validate_registration env.vEnv).flag = false →
      (attach_iteration env).1 =
        (validate_registration env.vEnv).events ++ [.detach]) := by
  rcases hv : validate_registration env.vEnv with ⟨vevs, vout, flag⟩
  rcases hs : send_enabled_report true REPOSITORY_PATH env.sEnv with ⟨sevs, sout⟩
  rcases hu : update_settings env.uEnv with ⟨uevs, uout⟩
  simp only [attach_iteration, hv, hs, hu] at h ⊢
  cases vout with
  | error e => simp at h
  | ok u =>
    cases flag with
    | false =>
      cases hd : env.detachResult with
      | error e => simp [hd] at h
      | ok _ => simp [hd]
    | true =>
      cases sout with
      | error e => simp at h
      | ok _ =>
        cases uout with
        | error e => simp at h
        | ok _ =>
          cases ha : env.attachResult with
          | error e => simp [ha] at h
          | ok _ => simp [ha]

/-- An iteration where everything succeeds and the consumer is found. -/
def c6env : IterEnv :=
  ⟨⟨true, .ok "abc-123", .ok true⟩, c4sEnv, c4uEnv, .ok (), .ok ()⟩

/-- C6 witness: in the concrete all-success registered iteration the
trace is validation, report send, settings refresh, attach, in order. -/
theorem thm_C6_witness :
    (attach_iteration c6env).1 =
      (validate_registration c6env.vEnv).events
        ++ (send_enabled_report true REPOSITORY_PATH c6env.sEnv).1
        ++ (update_settings c6env.uEnv).1 ++ [Event.attach] :=
  (thm_C6 c6env rfl).1 rfl

end Katello
